import Mathlib

set_option maxHeartbeats 1000000

/-!
Verification of the bearer-token authentication and legacy OAuth proxy core of
civicteam/auth-mcp, as a shallow embedding in Lean.

JavaScript strings are modelled as `String`, `null`/`undefined`-able strings as
`Option String` (with JS truthiness: `none` and `""` are falsy), association
structures (`URLSearchParams`, `Map`) as `List (String × String)` respecting
first-match lookup and in-place overwrite, and asynchronous fallible operations
as `Except`-valued functions.  Network effects (`jwtVerify` key resolution, the
upstream `fetch` calls) are passed in as explicit parameters; the enrichment
callback `onLogin` is a function parameter whose invocations are additionally
returned as an explicit call trace so that "the callback was / was not invoked"
is an observable fact.
-/

namespace AuthMcp

/-! ## Constants (src/library/src/constants.ts and legacy/constants.ts) -/

def PUBLIC_CIVIC_CLIENT_ID : String := "12220cf4-1a9a-4964-8eb7-7c6d7d049f34"

def DEFAULT_WELLKNOWN_URL : String :=
  "https://auth.civic.com/oauth/.well-known/openid-configuration"

def DEFAULT_SCOPES : List String := ["openid", "profile", "email", "offline_access"]

/-- State expiration time in milliseconds (10 minutes). -/
def STATE_EXPIRATION_MS : Nat := 10 * 60 * 1000

/-! ## JavaScript string semantics helpers -/

/-- JS truthiness of a nullable string: `null`/`undefined` and `""` are falsy. -/
def jsTruthy : Option String → Bool
  | none => false
  | some s => s ≠ ""

/-- JS `a || b` on nullable strings. -/
def jsOrOpt (a b : Option String) : Option String :=
  if jsTruthy a then a else b

/-- JS `a || b` where the fallback is a plain string. -/
def jsOrStr (a : Option String) (b : String) : String :=
  match a with
  | some s => if s = "" then b else s
  | none => b

/-- JS `String.prototype.startsWith`. -/
def jsStartsWith (s p : String) : Bool :=
  s.toList.take p.toList.length == p.toList

/-- JS `String.prototype.substring(n)`. -/
def jsSubstring (s : String) (n : Nat) : String :=
  String.mk (s.toList.drop n)

/-- Split a character list at every occurrence of `c` (JS `split` on the list level). -/
def splitOnCharAux (c : Char) : List Char → List Char → List (List Char)
  | [], acc => [acc.reverse]
  | x :: xs, acc =>
    if x = c then acc.reverse :: splitOnCharAux c xs []
    else splitOnCharAux c xs (x :: acc)

/-- JS `String.prototype.split(c)` for a one-character separator. -/
def jsSplit (s : String) (c : Char) : List String :=
  (splitOnCharAux c s.toList []).map String.mk

/-- Split a character list at the first occurrence of `c`, when present. -/
def splitFirst (c : Char) : List Char → Option (List Char × List Char)
  | [] => none
  | x :: xs =>
    if x = c then some ([], xs)
    else
      match splitFirst c xs with
      | none => none
      | some (a, b) => some (x :: a, b)

/-! ## Association lists: URLSearchParams / Map semantics -/

/-- First-match lookup (`URLSearchParams.get`, `Map.get`); `none` models `null`. -/
def assocGet {α : Type} (l : List (String × α)) (k : String) : Option α :=
  (l.find? (fun p => p.1 == k)).map (·.2)

/-- `URLSearchParams.set` / `Map.set`: overwrite the first binding of `k` in place,
drop later duplicates, or append a fresh binding. -/
def assocSet {α : Type} : List (String × α) → String → α → List (String × α)
  | [], k, v => [(k, v)]
  | (k', v') :: rest, k, v =>
    if k' == k then (k, v) :: rest.filter (fun p => p.1 != k)
    else (k', v') :: assocSet rest k v

/-- `Map.delete`: remove every binding of `k`. -/
def assocDelete {α : Type} (l : List (String × α)) (k : String) : List (String × α) :=
  l.filter (fun p => p.1 != k)

/-- `params.get(k) || ""`. -/
def getQStr (ps : List (String × String)) (k : String) : String :=
  (assocGet ps k).getD ""

/-- `params.get(k) || undefined`. -/
def getQOpt (ps : List (String × String)) (k : String) : Option String :=
  match assocGet ps k with
  | some s => if s = "" then none else some s
  | none => none

/-! ## URL model: a base plus parsed query parameters, as in the WHATWG `URL` class -/

structure UrlQ where
  base : String
  params : List (String × String)
deriving Repr, DecidableEq

/-- `url.searchParams.set(k, v)`. -/
def UrlQ.setParam (u : UrlQ) (k v : String) : UrlQ :=
  { u with params := assocSet u.params k v }

/-- `url.searchParams.get(k)`. -/
def UrlQ.getParam (u : UrlQ) (k : String) : Option String :=
  assocGet u.params k

/-- One `k=v` chunk of a query string. -/
def parsePairChars (l : List Char) : String × String :=
  match splitFirst '=' l with
  | none => (String.mk l, "")
  | some (k, v) => (String.mk k, String.mk v)

/-- Parse a query string (the part after `?`) into parameters. -/
def parseQueryChars (q : List Char) : List (String × String) :=
  match q with
  | [] => []
  | _ => (splitOnCharAux '&' q []).map parsePairChars

/-- `new URL(s)`, restricted to the base / query split relevant here. -/
def parseUrl (s : String) : UrlQ :=
  match splitFirst '?' s.toList with
  | none => { base := s, params := [] }
  | some (b, q) => { base := String.mk b, params := parseQueryChars q }

/-! ## Data model: JWT claims, identity record, error taxonomy (types.ts) -/

/-- The claims of a verified access token that this core reads
(`JWTPayload`/`AccessTokenPayload` in types.ts). -/
structure JWTPayload where
  client_id : Option String := none
  tid : Option String := none
  aud : Option String := none
  scope : Option String := none
  exp : Option Nat := none
  sub : Option String := none
deriving Repr, DecidableEq

/-- `ExtendedAuthInfo`: the identity record attached to an authenticated request.
`extra.sub` is flattened to `extraSub`. -/
structure ExtendedAuthInfo where
  token : String
  clientId : Option String
  scopes : List String
  expiresAt : Option Nat
  extraSub : Option String
deriving Repr, DecidableEq

/-- The errors thrown by the authenticator and caught by the middleware.
`JWTVerificationError` is a subtype of `AuthenticationError` in types.ts;
`otherError` stands for any unrelated exception. -/
inductive ThrownError where
  | jwtVerificationError (message : String)
  | authenticationError (message : String)
  | otherError (message : String)
deriving Repr, DecidableEq

/-- `error instanceof AuthenticationError` (true for the subtype as well). -/
def ThrownError.isAuthenticationError : ThrownError → Bool
  | .jwtVerificationError _ => true
  | .authenticationError _ => true
  | .otherError _ => false

def ThrownError.message : ThrownError → String
  | .jwtVerificationError m => m
  | .authenticationError m => m
  | .otherError m => m

/-! ## McpServerAuth (src/library/src/McpServerAuth.ts)

`jwtVerify` (the jose call, including remote key resolution) is passed as a
function from the token string to either the verified payload or the low-level
error message.  `onLogin` is the optional enrichment callback; the request
argument it receives in the source is absorbed into the function closure. -/

/-- The `inputAuthInfo` candidate built in `McpServerAuth.createAuthInfo` from a
token and verified claims; `null` when either is missing (JS `token && payload`). -/
def inputAuthInfo (token : Option String) (payload : Option JWTPayload) :
    Option ExtendedAuthInfo :=
  match token, payload with
  | some t, some p =>
    if t = "" then none
    else
      some {
        token := t
        clientId := jsOrOpt p.client_id p.aud
        scopes :=
          match p.scope with
          | some s => if s = "" then [] else jsSplit s ' '
          | none => []
        expiresAt := p.exp
        extraSub := p.sub }
  | _, _ => none

/-- `McpServerAuth.createAuthInfo`.  The second component is the trace of
arguments `onLogin` was invoked with (empty when it was not invoked). -/
def createAuthInfo (onLogin : Option (Option ExtendedAuthInfo → Option ExtendedAuthInfo))
    (token : Option String) (payload : Option JWTPayload) :
    Option ExtendedAuthInfo × List (Option ExtendedAuthInfo) :=
  match onLogin with
  | none => (inputAuthInfo token payload, [])
  | some f => (f (inputAuthInfo token payload), [inputAuthInfo token payload])

/-- `McpServerAuth.extractBearerToken`: absent or non-`Bearer ` headers yield
null token and claims; a present bearer token is verified, wrapping any
verification error in `JWTVerificationError`. -/
def extractBearerToken (jwtVerify : String → Except String JWTPayload)
    (authHeader : Option String) :
    Except ThrownError (Option String × Option JWTPayload) :=
  match authHeader with
  | none => .ok (none, none)
  | some h =>
    if jsStartsWith h "Bearer " then
      match jwtVerify (jsSubstring h 7) with
      | .ok payload => .ok (some (jsSubstring h 7), some payload)
      | .error msg => .error (.jwtVerificationError msg)
    else
      .ok (none, none)

/-- The tail of `McpServerAuth.handleRequest`: build auth info and fail with
`AuthenticationError` when no identity results. -/
def finishAuth (onLogin : Option (Option ExtendedAuthInfo → Option ExtendedAuthInfo))
    (token : Option String) (payload : Option JWTPayload) :
    Except ThrownError ExtendedAuthInfo × List (Option ExtendedAuthInfo) :=
  match createAuthInfo onLogin token payload with
  | (none, calls) => (.error (.authenticationError "Authentication failed"), calls)
  | (some ai, calls) => (.ok ai, calls)

/-- `McpServerAuth.handleRequest` as in the source snapshot, with the `onLogin`
call trace made observable. -/
def handleRequest (jwtVerify : String → Except String JWTPayload)
    (onLogin : Option (Option ExtendedAuthInfo → Option ExtendedAuthInfo))
    (authHeader : Option String) :
    Except ThrownError ExtendedAuthInfo × List (Option ExtendedAuthInfo) :=
  match extractBearerToken jwtVerify authHeader with
  | .error e => (.error e, [])
  | .ok (token, payload) => finishAuth onLogin token payload

/-- Modelled from the spec: the client/tenant binding check of spec §4.2.  The
snapshot's `McpServerAuth.ts` predates the `clientId` option, so the check
itself is missing from the sources; its declarations (`CivicAuthOptions.clientId`,
`AccessTokenPayload.tid` in types.ts) and its tests (`McpServerAuth.test.ts`)
are present.  Given an expected client identifier, the check passes when either
the token's `client_id` claim or its `tid` claim equals it, and otherwise raises
the same verification-failure type as token verification, with a message naming
the expected value (message as asserted by the tests); with no expected
identifier the check is a no-op. -/
def verifyClientBinding (expected : Option String) (payload : JWTPayload) :
    Except ThrownError Unit :=
  match expected with
  | none => .ok ()
  | some e =>
    if payload.client_id = some e ∨ payload.tid = some e then .ok ()
    else .error (.jwtVerificationError ("Invalid client_id or tid in token. Expected: " ++ e))

/-- Modelled from the spec: `handleRequest` with the §4.2 binding check run
between token verification and identity construction (spec §4.3 step 2:
binding failure propagates before enrichment). -/
def handleRequestChecked (expected : Option String)
    (jwtVerify : String → Except String JWTPayload)
    (onLogin : Option (Option ExtendedAuthInfo → Option ExtendedAuthInfo))
    (authHeader : Option String) :
    Except ThrownError ExtendedAuthInfo × List (Option ExtendedAuthInfo) :=
  match extractBearerToken jwtVerify authHeader with
  | .error e => (.error e, [])
  | .ok (token, payload) =>
    match payload with
    | none => finishAuth onLogin token payload
    | some p =>
      match verifyClientBinding expected p with
      | .error e => (.error e, [])
      | .ok () => finishAuth onLogin token payload

/-! ## Legacy OAuth proxy (src legacy/OAuthProxyHandler.ts, legacy/StateStore.ts)

The upstream `fetch` responses are passed in as explicit values and the forwarded
requests are returned alongside the HTTP response, so that "what was sent
upstream" is an observable fact.  `Date.now()` and the random internal state are
explicit parameters. -/

/-- `OAuthState`: the transient correlation record (legacy/types.ts). -/
structure OAuthState where
  redirectUri : String
  clientState : Option String
  codeChallenge : Option String
  codeChallengeMethod : Option String
  createdAt : Nat
  scope : Option String
  clientId : String
deriving Repr, DecidableEq

/-- The backing `Map` of `InMemoryStateStore`. -/
abbrev StateMap := List (String × OAuthState)

/-- `InMemoryStateStore.set`. -/
def InMemoryStateStore.set (st : StateMap) (key : String) (s : OAuthState) : StateMap :=
  assocSet st key s

/-- `InMemoryStateStore.get`, with the lazy expiration check: an entry older than
`STATE_EXPIRATION_MS` is deleted and reported absent.  Returns the result and the
(possibly mutated) store. -/
def InMemoryStateStore.get (now : Nat) (st : StateMap) (key : String) :
    Option OAuthState × StateMap :=
  match assocGet st key with
  | none => (none, st)
  | some s =>
    if now - s.createdAt > STATE_EXPIRATION_MS then (none, assocDelete st key)
    else (some s, st)

/-- `InMemoryStateStore.delete`. -/
def InMemoryStateStore.delete (st : StateMap) (key : String) : StateMap :=
  assocDelete st key

/-- `InMemoryStateStore.cleanup`: sweep all expired entries. -/
def InMemoryStateStore.cleanup (now : Nat) (st : StateMap) : StateMap :=
  st.filter (fun p => !(now - p.2.createdAt > STATE_EXPIRATION_MS : Bool))

/-- The options of `OAuthProxyHandler` relevant to its handlers. -/
structure LegacyOAuthOptions where
  clientId : Option String := none
  forceHttps : Bool := false

/-- `OIDCWellKnownConfiguration`, the fields the proxy reads. -/
structure OIDCConfiguration where
  issuer : String
  authorization_endpoint : String
  token_endpoint : String
  jwks_uri : String
  registration_endpoint : Option String := none

/-- An inbound request as the proxy handlers read it: host header, Express
protocol, and parsed query parameters. -/
structure ProxyRequest where
  host : String
  protocol : String
  query : List (String × String)

/-- The body sent by `sendErrorRedirect` (legacy/types.ts `OAuthErrorResponse`). -/
structure OAuthErrorResponse where
  error : String
  error_description : Option String := none
  error_uri : Option String := none
  state : Option String := none
deriving Repr, DecidableEq

/-- The responses a proxy handler writes: a 302 redirect, a JSON error body with
a status, or a verbatim relay of an upstream response with explicit headers. -/
inductive ProxyResponse where
  | redirect (location : UrlQ)
  | jsonError (status : Nat) (body : OAuthErrorResponse)
  | relay (status : Nat) (headers : List (String × String)) (body : String)
deriving Repr, DecidableEq

/-- `OAuthProxyHandler.getMcpCallbackUrl`. -/
def getMcpCallbackUrl (opts : LegacyOAuthOptions) (req : ProxyRequest) : String :=
  (if opts.forceHttps then "https" else req.protocol) ++ "://" ++ req.host ++ "/oauth/callback"

/-- `OAuthProxyHandler.sendErrorRedirect`: a structured 400 body when no redirect
target exists, otherwise a 302 carrying the OAuth error query parameters. -/
def sendErrorRedirect (redirectUri : String) (e : OAuthErrorResponse) : ProxyResponse :=
  if redirectUri = "" then .jsonError 400 e
  else
    let u1 := (parseUrl redirectUri).setParam "error" e.error
    let u2 := match e.error_description with
      | some d => if d = "" then u1 else u1.setParam "error_description" d
      | none => u1
    let u3 := match e.error_uri with
      | some d => if d = "" then u2 else u2.setParam "error_uri" d
      | none => u2
    let u4 := match e.state with
      | some s => if s = "" then u3 else u3.setParam "state" s
      | none => u3
    .redirect u4

/-- The parsed query of an authorize request (legacy/types.ts
`AuthorizationRequest`, with the `|| ""` / `|| undefined` coercions applied). -/
structure AuthorizationRequest where
  response_type : String
  client_id : String
  redirect_uri : String
  state : Option String
  scope : Option String
  code_challenge : Option String
  code_challenge_method : Option String
deriving Repr, DecidableEq

/-- `OAuthProxyHandler.handleAuthorize`.  `internalState` is the value produced by
`generateState()` and `now` is `Date.now()`. -/
def handleAuthorize (opts : LegacyOAuthOptions) (oidc : OIDCConfiguration)
    (internalState : String) (now : Nat) (req : ProxyRequest) (store : StateMap) :
    ProxyResponse × StateMap :=
  let ps := req.query
  let authReq : AuthorizationRequest := {
    response_type := getQStr ps "response_type"
    client_id := getQStr ps "client_id"
    redirect_uri := getQStr ps "redirect_uri"
    state := getQOpt ps "state"
    scope := getQOpt ps "scope"
    code_challenge := getQOpt ps "code_challenge"
    code_challenge_method := getQOpt ps "code_challenge_method" }
  if authReq.response_type = "" ∨ authReq.client_id = "" ∨ authReq.redirect_uri = "" then
    (sendErrorRedirect authReq.redirect_uri
      { error := "invalid_request", error_description := some "Missing required parameters",
        state := authReq.state }, store)
  else if authReq.response_type ≠ "code" then
    (sendErrorRedirect authReq.redirect_uri
      { error := "unsupported_response_type",
        error_description := some "Only \x27code\x27 response type is supported",
        state := authReq.state }, store)
  else
    let stateData : OAuthState := {
      redirectUri := authReq.redirect_uri
      clientState := authReq.state
      codeChallenge := authReq.code_challenge
      codeChallengeMethod := authReq.code_challenge_method
      createdAt := now
      scope := authReq.scope
      clientId := authReq.client_id }
    let store1 := InMemoryStateStore.set store internalState stateData
    let u1 := ((parseUrl oidc.authorization_endpoint).setParam "response_type" "code").setParam
      "client_id" (jsOrStr opts.clientId authReq.client_id)
    let u2 := (u1.setParam "redirect_uri" (getMcpCallbackUrl opts req)).setParam
      "state" internalState
    let u3 := match authReq.scope with
      | some s => u2.setParam "scope" s
      | none => u2
    let u4 := match authReq.code_challenge with
      | some c =>
        let ua := u3.setParam "code_challenge" c
        match authReq.code_challenge_method with
        | some m => ua.setParam "code_challenge_method" m
        | none => ua
      | none => u3
    (.redirect u4, store1)

/-- `OAuthProxyHandler.handleCallback`. -/
def handleCallback (now : Nat) (req : ProxyRequest) (store : StateMap) :
    ProxyResponse × StateMap :=
  let ps := req.query
  let code := assocGet ps "code"
  let state := assocGet ps "state"
  let error := assocGet ps "error"
  if jsTruthy state = false then
    (.jsonError 400 { error := "invalid_request" }, store)
  else
    match InMemoryStateStore.get now store (state.getD "") with
    | (none, store1) =>
      (.jsonError 400 { error := "invalid_request", error_description := some "Invalid state" },
        store1)
    | (some stateData, store1) =>
      let store2 := InMemoryStateStore.delete store1 (state.getD "")
      if jsTruthy error then
        (sendErrorRedirect stateData.redirectUri
          { error := error.getD ""
            error_description := getQOpt ps "error_description"
            error_uri := getQOpt ps "error_uri"
            state := stateData.clientState }, store2)
      else if jsTruthy code = false then
        (sendErrorRedirect stateData.redirectUri
          { error := "invalid_request"
            error_description := some "Missing authorization code"
            state := stateData.clientState }, store2)
      else
        let u1 := (parseUrl stateData.redirectUri).setParam "code" (code.getD "")
        let u2 := match stateData.clientState with
          | some cs => if cs = "" then u1 else u1.setParam "state" cs
          | none => u1
        (.redirect u2, store2)

/-- The parsed body of a token request (legacy/types.ts `TokenRequest`, with the
`|| ""` / `|| undefined` coercions of the form-encoded path applied). -/
structure TokenRequest where
  grant_type : String
  code : Option String
  redirect_uri : Option String
  client_id : Option String
  client_secret : Option String
  code_verifier : Option String
  refresh_token : Option String
  scope : Option String
deriving Repr, DecidableEq

/-- The form-encoded token request as parsed in `handleToken`. -/
def parseTokenRequest (body : List (String × String)) : TokenRequest := {
  grant_type := getQStr body "grant_type"
  code := getQOpt body "code"
  redirect_uri := getQOpt body "redirect_uri"
  client_id := getQOpt body "client_id"
  client_secret := getQOpt body "client_secret"
  code_verifier := getQOpt body "code_verifier"
  refresh_token := getQOpt body "refresh_token"
  scope := getQOpt body "scope" }

/-- The status, content type and text body of an upstream `fetch` response. -/
structure UpstreamResponse where
  status : Nat
  contentType : Option String
  body : String
deriving Repr, DecidableEq

/-- The request `handleToken` forwards upstream: the token endpoint it POSTs to
and the form-encoded body. -/
structure ForwardedTokenRequest where
  endpoint : String
  formBody : List (String × String)
deriving Repr, DecidableEq

/-- `OAuthProxyHandler.handleToken` (form-encoded body path).  Returns the
response written to the caller and the request forwarded upstream, if any. -/
def handleToken (opts : LegacyOAuthOptions) (oidc : OIDCConfiguration)
    (req : ProxyRequest) (body : List (String × String)) (upstream : UpstreamResponse) :
    ProxyResponse × Option ForwardedTokenRequest :=
  let tokenRequest := parseTokenRequest body
  if tokenRequest.grant_type = "" then
    (.jsonError 400 { error := "invalid_request" }, none)
  else
    let fwd : List (String × String) :=
      [("grant_type", tokenRequest.grant_type)]
      ++ (match tokenRequest.code with
          | some c => [("code", c)] | none => [])
      ++ (match tokenRequest.redirect_uri with
          | some _ => [("redirect_uri", getMcpCallbackUrl opts req)] | none => [])
      ++ (match tokenRequest.client_id with
          | some c => [("client_id", jsOrStr opts.clientId c)] | none => [])
      ++ (match tokenRequest.client_secret with
          | some c => [("client_secret", c)] | none => [])
      ++ (match tokenRequest.code_verifier with
          | some c => [("code_verifier", c)] | none => [])
      ++ (match tokenRequest.refresh_token with
          | some c => [("refresh_token", c)] | none => [])
      ++ (match tokenRequest.scope with
          | some s => [("scope", s)] | none => [])
    (.relay upstream.status
      [("Content-Type", upstream.contentType.getD ""),
       ("Cache-Control", "no-store"), ("Pragma", "no-cache")]
      upstream.body,
     some { endpoint := oidc.token_endpoint, formBody := fwd })

/-- A registration request body: the `scope` field the handler rewrites, plus the
remaining client metadata, carried through opaquely. -/
structure RegistrationBody where
  scope : Option String
  rest : List (String × String)
deriving Repr, DecidableEq

/-- The request `handleRegistration` forwards upstream. -/
structure ForwardedRegistration where
  endpoint : String
  body : RegistrationBody
deriving Repr, DecidableEq

/-- `OAuthProxyHandler.handleRegistration`: 404 when the upstream advertises no
registration endpoint; otherwise overwrite the body's `scope` with the fixed
"openid email profile" and forward as JSON, relaying the response verbatim. -/
def handleRegistration (oidc : OIDCConfiguration) (body : RegistrationBody)
    (upstream : UpstreamResponse) : ProxyResponse × Option ForwardedRegistration :=
  if jsTruthy oidc.registration_endpoint = false then
    (.jsonError 404 { error := "Registration not supported" }, none)
  else
    let body1 : RegistrationBody := { body with scope := some "openid email profile" }
    (.relay upstream.status [("Content-Type", upstream.contentType.getD "")] upstream.body,
     some { endpoint := oidc.registration_endpoint.getD "", body := body1 })

/-! ## Express middleware (index.ts `tokenValidationMiddleware`) -/

/-- The observable outcome of the middleware: pass the request on (with the
attached identity, if any) or answer with a JSON error body. -/
inductive MwResult where
  | next (auth : Option ExtendedAuthInfo)
  | respond (status : Nat) (error : String) (errorDescription : String)
deriving Repr, DecidableEq

/-- `tokenValidationMiddleware` of index.ts: skip metadata and legacy OAuth
paths and unprotected routes; otherwise authenticate, attach the identity, and
map `AuthenticationError` (and its subtype) to 401 and anything else to 500.
`handleResult` is the outcome of `mcpServerAuth.handleRequest`. -/
def tokenValidationMiddleware (enableLegacyOAuth : Bool) (oauthPaths : List String)
    (mcpRoute : String) (path : String)
    (handleResult : Except ThrownError ExtendedAuthInfo) : MwResult :=
  if path = "/.well-known/oauth-protected-resource" then .next none
  else if enableLegacyOAuth && oauthPaths.contains path then .next none
  else if jsStartsWith path mcpRoute = false then .next none
  else
    match handleResult with
    | .ok ai => .next (some ai)
    | .error e =>
      if e.isAuthenticationError then .respond 401 "authentication_error" e.message
      else .respond 500 "internal_error" "An unexpected error occurred"

/-! ## Association list lemmas -/

theorem assocGet_filter_ne {α : Type} (l : List (String × α)) (k k' : String)
    (h : k' ≠ k) :
    assocGet (l.filter (fun p => p.1 != k)) k' = assocGet l k' := by
  induction l with
  | nil => rfl
  | cons a rest ih =>
    by_cases ha : a.1 = k
    · have hk : (a.1 != k) = false := by simp [bne, ha]
      have hne : (a.1 == k') = false := by simp [ha, Ne.symm h]
      simp [assocGet, List.find?, List.filter, hk, hne] at *
      exact ih
    · have hk : (a.1 != k) = true := by simp [bne, ha]
      by_cases ha' : a.1 = k'
      · simp [assocGet, List.find?, List.filter, hk, show (a.1 == k') = true by simp [ha']]
      · simp only [assocGet, List.filter, hk] at *
        simp only [List.find?, show (a.1 == k') = false by simp [ha']] at *
        exact ih

theorem assocGet_assocSet_self {α : Type} (l : List (String × α)) (k : String) (v : α) :
    assocGet (assocSet l k v) k = some v := by
  induction l with
  | nil => simp [assocSet, assocGet, List.find?]
  | cons a rest ih =>
    by_cases ha : a.1 = k
    · simp [assocSet, assocGet, List.find?, ha]
    · simp only [assocSet, show (a.1 == k) = false by simp [ha], if_neg]
      simp only [assocGet, List.find?, show (a.1 == k) = false by simp [ha]] at *
      exact ih

theorem assocGet_assocSet_ne {α : Type} (l : List (String × α)) (k k' : String) (v : α)
    (h : k' ≠ k) :
    assocGet (assocSet l k v) k' = assocGet l k' := by
  induction l with
  | nil => simp [assocSet, assocGet, List.find?, show (k == k') = false by simp [Ne.symm h]]
  | cons a rest ih =>
    by_cases ha : a.1 = k
    · simp only [assocSet, show (a.1 == k) = true by simp [ha], if_pos]
      have h1 : (k == k') = false := by simp [Ne.symm h]
      simp only [assocGet, List.find?, h1]
      have h2 : (a.1 == k') = false := by simp [ha, Ne.symm h]
      have := assocGet_filter_ne rest k k' h
      simp only [assocGet] at this
      rw [this]
      simp [assocGet, List.find?, h2]
    · simp only [assocSet, show (a.1 == k) = false by simp [ha], if_neg]
      by_cases ha' : a.1 = k'
      · simp [assocGet, List.find?, ha']
      · simp only [assocGet, List.find?, show (a.1 == k') = false by simp [ha']] at *
        exact ih

theorem assocGet_assocDelete_self {α : Type} (l : List (String × α)) (k : String) :
    assocGet (assocDelete l k) k = none := by
  have h : (assocDelete l k).find? (fun p => p.1 == k) = none := by
    rw [List.find?_eq_none]
    intro x hx
    have hm := List.of_mem_filter hx
    simp only [bne, Bool.not_eq_true', decide_eq_false_iff_not, decide_eq_true_eq] at hm ⊢
    simp [hm]
  simp [assocGet, h]

theorem assocGet_append {α : Type} (l1 l2 : List (String × α)) (k : String) :
    assocGet (l1 ++ l2) k =
      match assocGet l1 k with
      | some v => some v
      | none => assocGet l2 k := by
  induction l1 with
  | nil => simp [assocGet]
  | cons a rest ih =>
    by_cases ha : a.1 = k
    · simp [assocGet, List.find?, ha]
    · simp only [List.cons_append, assocGet, List.find?,
        show (a.1 == k) = false by simp [ha]] at *
      exact ih

theorem UrlQ.base_setParam (u : UrlQ) (k v : String) : (u.setParam k v).base = u.base := rfl

theorem UrlQ.getParam_setParam_self (u : UrlQ) (k v : String) :
    (u.setParam k v).getParam k = some v :=
  assocGet_assocSet_self u.params k v

theorem UrlQ.getParam_setParam_ne (u : UrlQ) (k k' v : String) (h : k' ≠ k) :
    (u.setParam k v).getParam k' = u.getParam k' :=
  assocGet_assocSet_ne u.params k k' v h

/-! ## Claims about the bearer-token authenticator -/

/-- Claim C1: for every request whose bearer token verifies, when an expected client
identifier `E` is configured, authentication succeeds if either the token's
`client_id` claim or its `tid` claim equals `E`, and fails with a verification
failure whose message names `E` when both claims differ from `E`. -/
theorem claim_C1_binding_or_semantics (E h : String) (p : JWTPayload)
    (jv : String → Except String JWTPayload)
    (hb : jsStartsWith h "Bearer " = true)
    (ht : jsSubstring h 7 ≠ "")
    (hv : jv (jsSubstring h 7) = .ok p) :
    ((p.client_id = some E ∨ p.tid = some E) →
      ∃ ai, (handleRequestChecked (some E) jv none (some h)).1 = .ok ai)
  ∧ (p.client_id ≠ some E → p.tid ≠ some E →
      (handleRequestChecked (some E) jv none (some h)).1 =
        .error (.jwtVerificationError
          ("Invalid client_id or tid in token. Expected: " ++ E))) := by
  constructor
  · intro hor
    simp only [handleRequestChecked, extractBearerToken, hb, if_true, hv]
    simp only [verifyClientBinding, if_pos hor]
    simp only [finishAuth, createAuthInfo, inputAuthInfo, if_neg ht]
    exact ⟨_, rfl⟩
  · intro hcid htid
    simp only [handleRequestChecked, extractBearerToken, hb, if_true, hv]
    simp only [verifyClientBinding, if_neg (not_or.mpr ⟨hcid, htid⟩)]

/-- Witness for C1 at a concrete input: a token whose `client_id` and `tid` both
differ from the expected identifier is rejected with a message naming it. -/
theorem claim_C1_binding_or_semantics_witness :
    (handleRequestChecked (some "tenant-1")
      (fun _ => .ok { client_id := some "other-client", tid := some "other-tenant" })
      none (some "Bearer tok")).1 =
      .error (.jwtVerificationError
        ("Invalid client_id or tid in token. Expected: " ++ "tenant-1")) :=
  (claim_C1_binding_or_semantics "tenant-1" "Bearer tok"
      { client_id := some "other-client", tid := some "other-tenant" }
      (fun _ => .ok { client_id := some "other-client", tid := some "other-tenant" })
      (by decide) (by decide) rfl).2 (by decide) (by decide)

/-- Claim C2: a present bearer token that fails verification makes `handleRequest`
fail with a `JWTVerificationError` while the enrichment callback is never invoked
(empty call trace); with no bearer token, a configured enrichment callback is
still invoked exactly once, with a null candidate identity. -/
theorem claim_C2_verification_short_circuit
    (jv : String → Except String JWTPayload)
    (f : Option ExtendedAuthInfo → Option ExtendedAuthInfo)
    (h msg : String)
    (hb : jsStartsWith h "Bearer " = true)
    (hv : jv (jsSubstring h 7) = .error msg) :
    handleRequest jv (some f) (some h) = (.error (.jwtVerificationError msg), [])
  ∧ (handleRequest jv (some f) none).2 = [none]
  ∧ (∀ h2, jsStartsWith h2 "Bearer " = false →
      (handleRequest jv (some f) (some h2)).2 = [none]) := by
  refine ⟨?_, ?_, ?_⟩
  · simp only [handleRequest, extractBearerToken, hb, if_true, hv]
  · simp only [handleRequest, extractBearerToken, finishAuth, createAuthInfo]
    cases hf : f (inputAuthInfo none none) <;> simp [hf, inputAuthInfo]
  · intro h2 hb2
    have hred : handleRequest jv (some f) (some h2) = finishAuth (some f) none none := by
      simp [handleRequest, extractBearerToken, hb2]
    rw [hred]
    simp only [finishAuth, createAuthInfo]
    cases hf : f (inputAuthInfo none none) <;> simp only [hf] <;> rfl

/-- Witness for C2 at a concrete input: an expired token is rejected before the
callback runs, and a missing token still reaches the callback with `none`. -/
theorem claim_C2_verification_short_circuit_witness :
    handleRequest (fun _ => .error "token expired") (some fun x => x) (some "Bearer bad") =
      (.error (.jwtVerificationError "token expired"), [])
  ∧ (handleRequest (fun _ => .error "token expired") (some fun x => x) none).2 = [none] :=
  ⟨(claim_C2_verification_short_circuit (fun _ => .error "token expired") (fun x => x)
    "Bearer bad" "token expired" (by decide) rfl).1,
   (claim_C2_verification_short_circuit (fun _ => .error "token expired") (fun x => x)
    "Bearer bad" "token expired" (by decide) rfl).2.1⟩

/-- Claim C9: a request whose Authorization header is absent or does not start with
exactly "Bearer " is treated as carrying no token: `handleRequest` never raises a
`JWTVerificationError` for it, and with no enrichment callback configured it fails
with the plain `AuthenticationError` message "Authentication failed". -/
theorem claim_C9_non_bearer_treated_as_absent
    (jv : String → Except String JWTPayload)
    (onLogin : Option (Option ExtendedAuthInfo → Option ExtendedAuthInfo))
    (ah : Option String)
    (habs : ∀ s, ah = some s → jsStartsWith s "Bearer " = false) :
    (∀ m, (handleRequest jv onLogin ah).1 ≠ .error (.jwtVerificationError m))
  ∧ (handleRequest jv none ah).1 = .error (.authenticationError "Authentication failed") := by
  have hext : extractBearerToken jv ah = .ok (none, none) := by
    cases ah with
    | none => rfl
    | some s => simp [extractBearerToken, habs s rfl]
  constructor
  · intro m
    simp only [handleRequest, hext, finishAuth, createAuthInfo]
    cases onLogin with
    | none => simp [inputAuthInfo]
    | some f => cases hf : f (inputAuthInfo none none) <;> simp [hf]
  · simp [handleRequest, hext, finishAuth, createAuthInfo, inputAuthInfo]

/-- Witness for C9 at a concrete input: a Basic authorization header yields the
plain authentication failure. -/
theorem claim_C9_non_bearer_treated_as_absent_witness :
    (handleRequest (fun _ => .error "unreached") none (some "Basic dXNlcjpwdw==")).1 =
      .error (.authenticationError "Authentication failed") :=
  (claim_C9_non_bearer_treated_as_absent (fun _ => .error "unreached") none
    (some "Basic dXNlcjpwdw==")
    (by intro s hs; cases hs; decide)).2

/-! ## Claims about the state store, proxy handlers and middleware -/

/-- Claim C4: for every key in the state store, a `get` after a prior `delete`
returns absent, and a `get` more than the 10-minute expiration window after the
entry's `createdAt` returns absent even without a delete; repeating the `get`
(on the store each `get` returns) still yields absent. -/
theorem claim_C4_state_single_use (st : StateMap) (k : String) (e : OAuthState)
    (n1 n2 n3 n4 : Nat)
    (hlook : assocGet st k = some e)
    (hexp : STATE_EXPIRATION_MS < n1 - e.createdAt) :
    (InMemoryStateStore.get n2 (InMemoryStateStore.delete st k) k).1 = none
  ∧ (InMemoryStateStore.get n3
      (InMemoryStateStore.get n2 (InMemoryStateStore.delete st k) k).2 k).1 = none
  ∧ (InMemoryStateStore.get n1 st k).1 = none
  ∧ (InMemoryStateStore.get n4 (InMemoryStateStore.get n1 st k).2 k).1 = none := by
  have hdel : assocGet (InMemoryStateStore.delete st k) k = none :=
    assocGet_assocDelete_self st k
  refine ⟨?_, ?_, ?_, ?_⟩
  · simp [InMemoryStateStore.get, hdel]
  · simp [InMemoryStateStore.get, hdel]
  · simp [InMemoryStateStore.get, hlook, hexp]
  · simp [InMemoryStateStore.get, hlook, hexp, assocGet_assocDelete_self]

/-- Witness for C4 at a concrete input: one entry created at time 0, deleted or
read 11 minutes later. -/
theorem claim_C4_state_single_use_witness :
    (InMemoryStateStore.get 1
      (InMemoryStateStore.delete
        [("k1", { redirectUri := "https://c.example/cb", clientState := some "s",
                  codeChallenge := none, codeChallengeMethod := none,
                  createdAt := 0, scope := none, clientId := "c1" })] "k1") "k1").1 = none
  ∧ (InMemoryStateStore.get 660000
      [("k1", { redirectUri := "https://c.example/cb", clientState := some "s",
                codeChallenge := none, codeChallengeMethod := none,
                createdAt := 0, scope := none, clientId := "c1" })] "k1").1 = none :=
  ⟨(claim_C4_state_single_use
      [("k1", { redirectUri := "https://c.example/cb", clientState := some "s",
                codeChallenge := none, codeChallengeMethod := none,
                createdAt := 0, scope := none, clientId := "c1" })] "k1"
      { redirectUri := "https://c.example/cb", clientState := some "s",
        codeChallenge := none, codeChallengeMethod := none,
        createdAt := 0, scope := none, clientId := "c1" }
      660000 1 2 3 (by decide) (by decide)).1,
   (claim_C4_state_single_use
      [("k1", { redirectUri := "https://c.example/cb", clientState := some "s",
                codeChallenge := none, codeChallengeMethod := none,
                createdAt := 0, scope := none, clientId := "c1" })] "k1"
      { redirectUri := "https://c.example/cb", clientState := some "s",
        codeChallenge := none, codeChallengeMethod := none,
        createdAt := 0, scope := none, clientId := "c1" }
      660000 1 2 3 (by decide) (by decide)).2.2.1⟩

/-- Claim C6: when the upstream advertises a registration endpoint, the body
forwarded to it has its `scope` field equal to the fixed "openid email profile"
string, whatever scope the client supplied. -/
theorem claim_C6_registration_scope_overwritten (oidc : OIDCConfiguration)
    (body : RegistrationBody) (up : UpstreamResponse) (ep : String)
    (hep : oidc.registration_endpoint = some ep) (hne : ep ≠ "") :
    (handleRegistration oidc body up).2 =
      some { endpoint := ep, body := { body with scope := some "openid email profile" } } := by
  simp [handleRegistration, jsTruthy, hep, hne]

/-- Witness for C6 at a concrete input: a client-supplied scope "read write" is
replaced by the fixed scope string. -/
theorem claim_C6_registration_scope_overwritten_witness :
    (handleRegistration
      { issuer := "https://auth.civic.com",
        authorization_endpoint := "https://auth.civic.com/oauth/auth",
        token_endpoint := "https://auth.civic.com/oauth/token",
        jwks_uri := "https://auth.civic.com/oauth/jwks",
        registration_endpoint := some "https://auth.civic.com/oauth/reg" }
      { scope := some "read write", rest := [("client_name", "Test Client")] }
      { status := 201, contentType := some "application/json", body := "{}" }).2 =
      some { endpoint := "https://auth.civic.com/oauth/reg",
             body := { scope := some "openid email profile",
                       rest := [("client_name", "Test Client")] } } :=
  claim_C6_registration_scope_overwritten
    { issuer := "https://auth.civic.com",
      authorization_endpoint := "https://auth.civic.com/oauth/auth",
      token_endpoint := "https://auth.civic.com/oauth/token",
      jwks_uri := "https://auth.civic.com/oauth/jwks",
      registration_endpoint := some "https://auth.civic.com/oauth/reg" }
    { scope := some "read write", rest := [("client_name", "Test Client")] }
    { status := 201, contentType := some "application/json", body := "{}" }
    "https://auth.civic.com/oauth/reg" rfl (by decide)

/-- Claim C8: on a protected route, an authentication failure that is an
`AuthenticationError` (or its subtype) yields a 401 JSON body
`{error: "authentication_error", error_description: <message>}`, and any other
thrown error yields a 500 `{error: "internal_error",
error_description: "An unexpected error occurred"}`. -/
theorem claim_C8_middleware_error_mapping (legacy : Bool) (oauthPaths : List String)
    (mcpRoute path : String) (e : ThrownError)
    (h1 : path ≠ "/.well-known/oauth-protected-resource")
    (h2 : (legacy && oauthPaths.contains path) = false)
    (h3 : jsStartsWith path mcpRoute = true) :
    (e.isAuthenticationError = true →
      tokenValidationMiddleware legacy oauthPaths mcpRoute path (.error e) =
        .respond 401 "authentication_error" e.message)
  ∧ (e.isAuthenticationError = false →
      tokenValidationMiddleware legacy oauthPaths mcpRoute path (.error e) =
        .respond 500 "internal_error" "An unexpected error occurred") := by
  constructor
  · intro ha
    rw [tokenValidationMiddleware, if_neg h1, h2]
    simp [h3, ha]
  · intro ha
    rw [tokenValidationMiddleware, if_neg h1, h2]
    simp [h3, ha]

/-- Witness for C8 at a concrete input: a verification failure on the protected
route maps to 401 with its message, and an unanticipated error to 500. -/
theorem claim_C8_middleware_error_mapping_witness :
    tokenValidationMiddleware true ["/authorize", "/token"] "/mcp" "/mcp"
        (.error (.jwtVerificationError "token expired")) =
      .respond 401 "authentication_error" "token expired"
  ∧ tokenValidationMiddleware true ["/authorize", "/token"] "/mcp" "/mcp"
        (.error (.otherError "db down")) =
      .respond 500 "internal_error" "An unexpected error occurred" :=
  ⟨(claim_C8_middleware_error_mapping true ["/authorize", "/token"] "/mcp" "/mcp"
      (.jwtVerificationError "token expired") (by decide) (by decide) (by decide)).1 (by decide),
   (claim_C8_middleware_error_mapping true ["/authorize", "/token"] "/mcp" "/mcp"
      (.otherError "db down") (by decide) (by decide) (by decide)).2 (by decide)⟩

/-- Claim C7: a token request without a `grant_type` gets a 400 `invalid_request`;
one with a `grant_type` is forwarded form-encoded to the upstream token endpoint
with the configured `client_id` substituted for the caller-supplied one and
`redirect_uri` rewritten to the proxy's callback URL, and the upstream status,
content type and body are relayed verbatim with no-store/no-cache headers. -/
theorem claim_C7_token_forwarding (opts : LegacyOAuthOptions) (oidc : OIDCConfiguration)
    (req : ProxyRequest) (body : List (String × String)) (up : UpstreamResponse)
    (cid ruri k : String)
    (hk : opts.clientId = some k) (hkne : k ≠ "") :
    (getQStr body "grant_type" = "" →
      handleToken opts oidc req body up =
        (.jsonError 400 { error := "invalid_request" }, none))
  ∧ (getQStr body "grant_type" ≠ "" →
     getQOpt body "client_id" = some cid →
     getQOpt body "redirect_uri" = some ruri →
      ∃ fwd,
        handleToken opts oidc req body up =
          (.relay up.status
            [("Content-Type", up.contentType.getD ""),
             ("Cache-Control", "no-store"), ("Pragma", "no-cache")]
            up.body,
           some fwd)
        ∧ fwd.endpoint = oidc.token_endpoint
        ∧ assocGet fwd.formBody "grant_type" = some (getQStr body "grant_type")
        ∧ assocGet fwd.formBody "client_id" = some k
        ∧ assocGet fwd.formBody "redirect_uri" = some (getMcpCallbackUrl opts req))
  ∧ (getQStr body "grant_type" ≠ "" →
      ∃ fwd,
        handleToken opts oidc req body up =
          (.relay up.status
            [("Content-Type", up.contentType.getD ""),
             ("Cache-Control", "no-store"), ("Pragma", "no-cache")]
            up.body,
           some fwd)
        ∧ fwd.endpoint = oidc.token_endpoint) := by
  refine ⟨?_, ?_, ?_⟩
  · intro hg
    simp [handleToken, parseTokenRequest, hg]
  swap
  · intro hg
    simp only [handleToken, parseTokenRequest]
    rw [if_neg hg]
    exact ⟨_, rfl, rfl⟩
  · intro hg hcid hruri
    simp only [handleToken, parseTokenRequest]
    rw [if_neg hg]
    refine ⟨_, rfl, rfl, ?_, ?_, ?_⟩
    · cases hcode : getQOpt body "code" <;>
        simp [hcode, hcid, hruri, assocGet_append, assocGet, List.find?]
    · cases hcode : getQOpt body "code" <;>
        simp [hcode, hcid, hruri, assocGet_append, assocGet, List.find?,
          jsOrStr, hk, hkne]
    · cases hcode : getQOpt body "code" <;>
        simp [hcode, hcid, hruri, assocGet_append, assocGet, List.find?]

/-- Witness for C7 at a concrete input: a `authorization_code` exchange with a
caller-supplied client id and redirect URI, and a proxy-configured client id. -/
theorem claim_C7_token_forwarding_witness :
    ∃ fwd,
      handleToken { clientId := some "configured-client", forceHttps := false }
        { issuer := "https://auth.civic.com",
          authorization_endpoint := "https://auth.civic.com/oauth/auth",
          token_endpoint := "https://auth.civic.com/oauth/token",
          jwks_uri := "https://auth.civic.com/oauth/jwks" }
        { host := "mcp.example.com", protocol := "http", query := [] }
        [("grant_type", "authorization_code"), ("code", "c0de"),
         ("redirect_uri", "https://client.example.com/cb"), ("client_id", "caller-client")]
        { status := 200, contentType := some "application/json", body := "{}" } =
        (.relay 200
          [("Content-Type", "application/json"),
           ("Cache-Control", "no-store"), ("Pragma", "no-cache")]
          "{}",
         some fwd)
      ∧ fwd.endpoint = "https://auth.civic.com/oauth/token"
      ∧ assocGet fwd.formBody "grant_type" = some "authorization_code"
      ∧ assocGet fwd.formBody "client_id" = some "configured-client"
      ∧ assocGet fwd.formBody "redirect_uri" = some "http://mcp.example.com/oauth/callback" :=
  (claim_C7_token_forwarding { clientId := some "configured-client", forceHttps := false }
    { issuer := "https://auth.civic.com",
      authorization_endpoint := "https://auth.civic.com/oauth/auth",
      token_endpoint := "https://auth.civic.com/oauth/token",
      jwks_uri := "https://auth.civic.com/oauth/jwks" }
    { host := "mcp.example.com", protocol := "http", query := [] }
    [("grant_type", "authorization_code"), ("code", "c0de"),
     ("redirect_uri", "https://client.example.com/cb"), ("client_id", "caller-client")]
    { status := 200, contentType := some "application/json", body := "{}" }
    "caller-client" "https://client.example.com/cb" "configured-client"
    rfl (by decide)).2.1 (by decide) (by decide) (by decide)

/-- What `sendErrorRedirect` produces when a redirect target and a nonempty
description are present: a 302 whose query carries the error, the description,
and the stored client state when one exists. -/
theorem sendErrorRedirect_spec (r err desc : String) (stOpt : Option String)
    (hr : r ≠ "") (hdesc : desc ≠ "") :
    ∃ u,
      sendErrorRedirect r
        { error := err, error_description := some desc, error_uri := none, state := stOpt } =
        .redirect u
      ∧ u.base = (parseUrl r).base
      ∧ u.getParam "error" = some err
      ∧ u.getParam "error_description" = some desc
      ∧ (∀ cs, stOpt = some cs → cs ≠ "" → u.getParam "state" = some cs) := by
  rw [sendErrorRedirect, if_neg hr]
  dsimp only
  rw [if_neg hdesc]
  cases stOpt with
  | none =>
    refine ⟨_, rfl, rfl, ?_, ?_, ?_⟩
    · rw [UrlQ.getParam_setParam_ne _ _ _ _ (by decide), UrlQ.getParam_setParam_self]
    · rw [UrlQ.getParam_setParam_self]
    · intro cs hcs
      exact absurd hcs (by simp)
  | some cs0 =>
    dsimp only
    by_cases hcs0 : cs0 = ""
    · subst hcs0
      rw [if_pos rfl]
      refine ⟨_, rfl, rfl, ?_, ?_, ?_⟩
      · rw [UrlQ.getParam_setParam_ne _ _ _ _ (by decide), UrlQ.getParam_setParam_self]
      · rw [UrlQ.getParam_setParam_self]
      · intro cs hcs hne
        cases hcs
        exact absurd rfl hne
    · rw [if_neg hcs0]
      refine ⟨_, rfl, rfl, ?_, ?_, ?_⟩
      · rw [UrlQ.getParam_setParam_ne _ _ _ _ (by decide),
          UrlQ.getParam_setParam_ne _ _ _ _ (by decide), UrlQ.getParam_setParam_self]
      · rw [UrlQ.getParam_setParam_ne _ _ _ _ (by decide), UrlQ.getParam_setParam_self]
      · intro cs hcs hne
        cases hcs
        rw [UrlQ.getParam_setParam_self]

/-- Claim C10: a callback whose state matches a stored, unexpired record but which
carries neither a code nor an error still consumes the stored state and responds
with a 302 to the stored redirect URI carrying `error=invalid_request`,
`error_description=Missing authorization code`, and the original client state
when one was stored. -/
theorem claim_C10_callback_missing_code (now : Nat) (req : ProxyRequest) (store : StateMap)
    (k : String) (sd : OAuthState)
    (hq : req.query = [("state", k)])
    (hk : k ≠ "")
    (hlook : assocGet store k = some sd)
    (hfresh : now - sd.createdAt ≤ STATE_EXPIRATION_MS)
    (hr : sd.redirectUri ≠ "") :
    ∃ u store2,
      handleCallback now req store = (.redirect u, store2)
      ∧ u.base = (parseUrl sd.redirectUri).base
      ∧ u.getParam "error" = some "invalid_request"
      ∧ u.getParam "error_description" = some "Missing authorization code"
      ∧ (∀ cs, sd.clientState = some cs → cs ≠ "" → u.getParam "state" = some cs)
      ∧ assocGet store2 k = none := by
  have hc : assocGet [(("state" : String), k)] "code" = none := by simp [assocGet, List.find?]
  have hs : assocGet [(("state" : String), k)] "state" = some k := by
    simp [assocGet, List.find?]
  have he : assocGet [(("state" : String), k)] "error" = none := by simp [assocGet, List.find?]
  have hget : InMemoryStateStore.get now store k = (some sd, store) := by
    simp only [InMemoryStateStore.get, hlook]
    rw [if_neg (Nat.not_lt.mpr hfresh)]
  have hts : jsTruthy (some k) = true := by simp [jsTruthy, hk]
  have htn : jsTruthy (none : Option String) = false := rfl
  have hmain : handleCallback now req store =
      (sendErrorRedirect sd.redirectUri
        { error := "invalid_request", error_description := some "Missing authorization code",
          error_uri := none, state := sd.clientState },
       InMemoryStateStore.delete store k) := by
    simp [handleCallback, hq, hc, hs, he, hget, hts, htn]
  obtain ⟨u, hu, hb, h1, h2, h3⟩ :=
    sendErrorRedirect_spec sd.redirectUri "invalid_request" "Missing authorization code"
      sd.clientState hr (by decide)
  refine ⟨u, InMemoryStateStore.delete store k, ?_, hb, h1, h2, h3, ?_⟩
  · rw [hmain, hu]
  · simpa [InMemoryStateStore.delete] using assocGet_assocDelete_self store k

/-- Witness for C10 at a concrete input. -/
theorem claim_C10_callback_missing_code_witness :
    ∃ u store2,
      handleCallback 1000
        { host := "mcp.example.com", protocol := "http", query := [("state", "k1")] }
        [("k1", { redirectUri := "https://client.example.com/cb", clientState := some "cs1",
                  codeChallenge := none, codeChallengeMethod := none,
                  createdAt := 0, scope := none, clientId := "c1" })] =
        (.redirect u, store2)
      ∧ u.base = (parseUrl "https://client.example.com/cb").base
      ∧ u.getParam "error" = some "invalid_request"
      ∧ u.getParam "error_description" = some "Missing authorization code"
      ∧ (∀ cs,
          ({ redirectUri := "https://client.example.com/cb", clientState := some "cs1",
             codeChallenge := none, codeChallengeMethod := none,
             createdAt := 0, scope := none, clientId := "c1" } : OAuthState).clientState
            = some cs → cs ≠ "" → u.getParam "state" = some cs)
      ∧ assocGet store2 "k1" = none :=
  claim_C10_callback_missing_code 1000
    { host := "mcp.example.com", protocol := "http", query := [("state", "k1")] }
    [("k1", { redirectUri := "https://client.example.com/cb", clientState := some "cs1",
              codeChallenge := none, codeChallengeMethod := none,
              createdAt := 0, scope := none, clientId := "c1" })]
    "k1"
    { redirectUri := "https://client.example.com/cb", clientState := some "cs1",
      codeChallenge := none, codeChallengeMethod := none,
      createdAt := 0, scope := none, clientId := "c1" }
    rfl (by decide) (by decide) (by decide) (by decide)

/-- Claim C5, evaluated at a concrete input: an authorize request with all
required parameters but no `scope` produces an upstream redirect whose query
carries NO scope parameter at all — the fixed default scope set is not
substituted, contradicting the claim (and the repository's own changelog entry
for 0.2.5). -/
theorem claim_C5_no_default_scope_on_authorize :
    (handleAuthorize { clientId := none, forceHttps := false }
      { issuer := "https://auth.civic.com",
        authorization_endpoint := "https://auth.civic.com/oauth/auth",
        token_endpoint := "https://auth.civic.com/oauth/token",
        jwks_uri := "https://auth.civic.com/oauth/jwks" }
      "internal-state-1" 0
      { host := "mcp.example.com", protocol := "http",
        query := [("response_type", "code"), ("client_id", "client-1"),
                  ("redirect_uri", "https://client.example.com/cb")] }
      []).1 =
      .redirect { base := "https://auth.civic.com/oauth/auth",
                  params := [("response_type", "code"), ("client_id", "client-1"),
                             ("redirect_uri", "http://mcp.example.com/oauth/callback"),
                             ("state", "internal-state-1")] }
  ∧ UrlQ.getParam
      { base := "https://auth.civic.com/oauth/auth",
        params := [("response_type", "code"), ("client_id", "client-1"),
                   ("redirect_uri", "http://mcp.example.com/oauth/callback"),
                   ("state", "internal-state-1")] } "scope" = none := by
  constructor
  · decide
  · decide

/-- Claim C3: an authorize request `response_type=code&client_id=X&redirect_uri=R&state=S`
redirects to the upstream authorization endpoint with `redirect_uri` rewritten to
this proxy's callback URL and the freshly generated internal state (different
from `S`) substituted; the subsequent callback carrying that internal state and
`code=C` redirects to `R` with `code=C` and the original `state=S`. -/
theorem claim_C3_authorize_callback_roundtrip
    (opts : LegacyOAuthOptions) (oidc : OIDCConfiguration)
    (X R S C gen : String) (now1 now2 : Nat)
    (req cbReq : ProxyRequest) (store : StateMap)
    (hX : X ≠ "") (hR : R ≠ "") (hS : S ≠ "") (hC : C ≠ "")
    (hgenne : gen ≠ "") (hgen : gen ≠ S)
    (hq : req.query = [("response_type", "code"), ("client_id", X),
                       ("redirect_uri", R), ("state", S)])
    (hcbq : cbReq.query = [("code", C), ("state", gen)])
    (hfresh : now2 - now1 ≤ STATE_EXPIRATION_MS) :
    ∃ u storeA v storeB,
      handleAuthorize opts oidc gen now1 req store = (.redirect u, storeA)
      ∧ u.base = (parseUrl oidc.authorization_endpoint).base
      ∧ u.getParam "redirect_uri" = some (getMcpCallbackUrl opts req)
      ∧ u.getParam "state" = some gen
      ∧ gen ≠ S
      ∧ handleCallback now2 cbReq storeA = (.redirect v, storeB)
      ∧ v.base = (parseUrl R).base
      ∧ v.getParam "code" = some C
      ∧ v.getParam "state" = some S := by
  have hrt : getQStr [(("response_type" : String), ("code" : String)), ("client_id", X),
      ("redirect_uri", R), ("state", S)] "response_type" = "code" := by
    simp [getQStr, assocGet, List.find?]
  have hci : getQStr [(("response_type" : String), ("code" : String)), ("client_id", X),
      ("redirect_uri", R), ("state", S)] "client_id" = X := by
    simp [getQStr, assocGet, List.find?]
  have hru : getQStr [(("response_type" : String), ("code" : String)), ("client_id", X),
      ("redirect_uri", R), ("state", S)] "redirect_uri" = R := by
    simp [getQStr, assocGet, List.find?]
  have hst : getQOpt [(("response_type" : String), ("code" : String)), ("client_id", X),
      ("redirect_uri", R), ("state", S)] "state" = some S := by
    simp [getQOpt, assocGet, List.find?, hS]
  have hsc : getQOpt [(("response_type" : String), ("code" : String)), ("client_id", X),
      ("redirect_uri", R), ("state", S)] "scope" = none := by
    simp [getQOpt, assocGet, List.find?]
  have hcc : getQOpt [(("response_type" : String), ("code" : String)), ("client_id", X),
      ("redirect_uri", R), ("state", S)] "code_challenge" = none := by
    simp [getQOpt, assocGet, List.find?]
  have hccm : getQOpt [(("response_type" : String), ("code" : String)), ("client_id", X),
      ("redirect_uri", R), ("state", S)] "code_challenge_method" = none := by
    simp [getQOpt, assocGet, List.find?]
  have hauth : handleAuthorize opts oidc gen now1 req store =
      (.redirect
        (((((parseUrl oidc.authorization_endpoint).setParam "response_type" "code").setParam
            "client_id" (jsOrStr opts.clientId X)).setParam
            "redirect_uri" (getMcpCallbackUrl opts req)).setParam "state" gen),
       InMemoryStateStore.set store gen
        { redirectUri := R, clientState := some S, codeChallenge := none,
          codeChallengeMethod := none, createdAt := now1, scope := none, clientId := X }) := by
    simp [handleAuthorize, hq, hrt, hci, hru, hst, hsc, hcc, hccm, hX, hR]
  have hc2 : assocGet [(("code" : String), C), ("state", gen)] "code" = some C := by
    simp [assocGet, List.find?]
  have hs2 : assocGet [(("code" : String), C), ("state", gen)] "state" = some gen := by
    simp [assocGet, List.find?]
  have he2 : assocGet [(("code" : String), C), ("state", gen)] "error" = none := by
    simp [assocGet, List.find?]
  have hget2 : InMemoryStateStore.get now2
      (InMemoryStateStore.set store gen
        { redirectUri := R, clientState := some S, codeChallenge := none,
          codeChallengeMethod := none, createdAt := now1, scope := none, clientId := X }) gen =
      (some { redirectUri := R, clientState := some S, codeChallenge := none,
              codeChallengeMethod := none, createdAt := now1, scope := none, clientId := X },
       InMemoryStateStore.set store gen
        { redirectUri := R, clientState := some S, codeChallenge := none,
          codeChallengeMethod := none, createdAt := now1, scope := none, clientId := X }) := by
    simp only [InMemoryStateStore.get, InMemoryStateStore.set, assocGet_assocSet_self]
    rw [if_neg (Nat.not_lt.mpr hfresh)]
  have hts2 : jsTruthy (some gen) = true := by simp [jsTruthy, hgenne]
  have htc2 : jsTruthy (some C) = true := by simp [jsTruthy, hC]
  have hcb : handleCallback now2 cbReq
      (InMemoryStateStore.set store gen
        { redirectUri := R, clientState := some S, codeChallenge := none,
          codeChallengeMethod := none, createdAt := now1, scope := none, clientId := X }) =
      (.redirect (((parseUrl R).setParam "code" C).setParam "state" S),
       InMemoryStateStore.delete
        (InMemoryStateStore.set store gen
          { redirectUri := R, clientState := some S, codeChallenge := none,
            codeChallengeMethod := none, createdAt := now1, scope := none, clientId := X })
        gen) := by
    simp [handleCallback, hcbq, hc2, hs2, he2, hget2, hts2, htc2, hS,
      show jsTruthy none = false from rfl]
  refine ⟨_, _, _, _, hauth, ?_, ?_, ?_, hgen, hcb, ?_, ?_, ?_⟩
  · rfl
  · rw [UrlQ.getParam_setParam_ne _ _ _ _ (by decide), UrlQ.getParam_setParam_self]
  · rw [UrlQ.getParam_setParam_self]
  · rfl
  · rw [UrlQ.getParam_setParam_ne _ _ _ _ (by decide), UrlQ.getParam_setParam_self]
  · rw [UrlQ.getParam_setParam_self]

/-- Witness for C3 at a concrete input. -/
theorem claim_C3_authorize_callback_roundtrip_witness :
    ∃ u storeA v storeB,
      handleAuthorize { clientId := none, forceHttps := false }
        { issuer := "https://auth.civic.com",
          authorization_endpoint := "https://auth.civic.com/oauth/auth",
          token_endpoint := "https://auth.civic.com/oauth/token",
          jwks_uri := "https://auth.civic.com/oauth/jwks" }
        "gen-state-1" 100
        { host := "mcp.example.com", protocol := "http",
          query := [("response_type", "code"), ("client_id", "client-1"),
                    ("redirect_uri", "https://client.example.com/cb"), ("state", "S1")] }
        [] = (.redirect u, storeA)
      ∧ u.base =
          (parseUrl "https://auth.civic.com/oauth/auth").base
      ∧ u.getParam "redirect_uri" =
          some (getMcpCallbackUrl { clientId := none, forceHttps := false }
            { host := "mcp.example.com", protocol := "http",
              query := [("response_type", "code"), ("client_id", "client-1"),
                        ("redirect_uri", "https://client.example.com/cb"), ("state", "S1")] })
      ∧ u.getParam "state" = some "gen-state-1"
      ∧ ("gen-state-1" : String) ≠ "S1"
      ∧ handleCallback 200
          { host := "mcp.example.com", protocol := "http",
            query := [("code", "c0de"), ("state", "gen-state-1")] }
          storeA = (.redirect v, storeB)
      ∧ v.base = (parseUrl "https://client.example.com/cb").base
      ∧ v.getParam "code" = some "c0de"
      ∧ v.getParam "state" = some "S1" :=
  claim_C3_authorize_callback_roundtrip
    { clientId := none, forceHttps := false }
    { issuer := "https://auth.civic.com",
      authorization_endpoint := "https://auth.civic.com/oauth/auth",
      token_endpoint := "https://auth.civic.com/oauth/token",
      jwks_uri := "https://auth.civic.com/oauth/jwks" }
    "client-1" "https://client.example.com/cb" "S1" "c0de" "gen-state-1" 100 200
    { host := "mcp.example.com", protocol := "http",
      query := [("response_type", "code"), ("client_id", "client-1"),
                ("redirect_uri", "https://client.example.com/cb"), ("state", "S1")] }
    { host := "mcp.example.com", protocol := "http",
      query := [("code", "c0de"), ("state", "gen-state-1")] }
    []
    (by decide) (by decide) (by decide) (by decide) (by decide) (by decide)
    rfl rfl (by decide)

end AuthMcp
